import Mathlib

/-!
Shallow embedding of `src/main.rs` of matrix-migrate.

Network effects are modelled by per-room environments that record the answers
the two matrix clients would give (`get_room`, `get_member`, `display_name`)
and the outcome of each fallible mutating call (`invite_user_by_id`, `join`,
`update_power_levels`, `leave`, `set_is_direct`).  Each Rust async function
becomes a pure Lean function from its environment to an outcome together with
the list of mutating operations it issued.
-/

deriving instance DecidableEq for Except

/-- Result of a fallible client call (`anyhow::Result` with an opaque error). -/
abbrev MResult (α : Type) := Except Unit α

/-- A room member record as seen through `Room::get_member`: only the power
level is consulted by the program. -/
structure MemberInfo where
  power_level : Int
deriving DecidableEq, Repr

/-- A mutating operation issued to one of the two sessions. -/
inductive Op where
  | invite (room user : String)
  | join (room : String)
  | setPower (room user : String) (level : Int)
  | leave (room : String)
  | setDirect (room : String) (b : Bool)
deriving DecidableEq, Repr

/-- How a function (or one per-room task) finishes: normally, with a
propagated `Err` (Rust `?`), or with a panic (Rust `expect`/`unwrap`). -/
inductive StepOut where
  | ok
  | err
  | panic
deriving DecidableEq, Repr

/-- `joined.get_member(u)`: the environment lists the answers per user id; a
user id not listed resolves to `Ok(None)` (not a member). -/
def get_member (ms : List (String × MResult (Option MemberInfo))) (u : String) :
    MResult (Option MemberInfo) :=
  (ms.lookup u).getD (.ok none)

/-- `i64::try_into::<js_int::Int>` succeeds exactly on the js-int range. -/
def js_int_ok (x : Int) : Bool :=
  decide (-(2 ^ 53 - 1) ≤ x) && decide (x ≤ 2 ^ 53 - 1)

/-- Outcomes of several concurrently joined tasks (`try_join!`,
`try_join_all`, `join_all`): a panic aborts the process, otherwise any `Err`
makes the whole join an `Err`. -/
def combine_out (xs : List StepOut) : StepOut :=
  if xs.contains .panic then .panic
  else if xs.contains .err then .err
  else .ok

/-! ## ensure_power_levels -/

/-- The `from_c` view of one room inside `ensure_power_levels`: the
`get_member` answers. -/
structure EnsureRoomView where
  members : List (String × MResult (Option MemberInfo))
deriving DecidableEq, Repr

/-- Environment for one room of `ensure_power_levels`: `from_c.get_room`
answer and the outcome `update_power_levels` would have. -/
structure EnsureRoomEnv where
  room : Option EnsureRoomView
  updateResult : MResult Unit
deriving DecidableEq, Repr

/-- One per-room task of `ensure_power_levels` (src/main.rs lines 293-336).
The trailing `match` on `updateResult` mirrors the `if let Err(e)` that only
logs a warning: both arms finish `Ok`. -/
def ensure_power_levels_room (self_id user_id : String) (dryrun : Bool)
    (room_id : String) (env : EnsureRoomEnv) : StepOut × List Op :=
  match env.room with
  | none => (.ok, [])
  | some joined =>
    match get_member joined.members self_id with
    | .error _ => (.err, [])
    | .ok none => (.ok, [])
    | .ok (some me) =>
      match get_member joined.members user_id with
      | .error _ => (.err, [])
      | .ok none => (.ok, [])
      | .ok (some new_acc) =>
        let my_power_level := me.power_level
        if my_power_level ≤ new_acc.power_level then (.ok, [])
        else if dryrun then (.ok, [])
        else if ¬ js_int_ok my_power_level then (.panic, [])
        else
          match env.updateResult with
          | .error _ => (.ok, [Op.setPower room_id user_id my_power_level])
          | .ok _ => (.ok, [Op.setPower room_id user_id my_power_level])

/-- `ensure_power_levels`: `try_join_all` over the per-room tasks. -/
def ensure_power_levels (self_id user_id : String) (dryrun : Bool)
    (rooms : List (String × EnsureRoomEnv)) : StepOut × List Op :=
  let rs := rooms.map fun p => ensure_power_levels_room self_id user_id dryrun p.1 p.2
  (combine_out (rs.map (·.1)), (rs.map (·.2)).flatten)

/-! ## accept_invites -/

/-- The `to_c` view of one room inside `accept_invites`. -/
structure AcceptRoomView where
  displayName : MResult String
deriving DecidableEq, Repr

/-- Environment for one room of `accept_invites`: `to_c.get_room` answer and
the outcome `join` would have. -/
structure AcceptRoomEnv where
  room : Option AcceptRoomView
  joinResult : MResult Unit
deriving DecidableEq, Repr

/-- `accept_invites` (src/main.rs lines 342-369): a sequential loop; a
`display_name` or `join` error returns `Err` at once (Rust `?`); a room the
client cannot see is pushed onto the pending list.  (The inner
`to_c.get_room(room_id).is_some()` re-query in the source is the same lookup
that just produced `None`, so that branch is dead and the room is pended.) -/
def accept_invites (dryrun : Bool) (rooms : List (String × AcceptRoomEnv)) :
    StepOut × List String × List Op :=
  match rooms with
  | [] => (.ok, [], [])
  | (room_id, env) :: rest =>
    match env.room with
    | none =>
      let t := accept_invites dryrun rest
      (t.1, room_id :: t.2.1, t.2.2)
    | some invited =>
      match invited.displayName with
      | .error _ => (.err, [], [])
      | .ok _ =>
        if dryrun then accept_invites dryrun rest
        else
          match env.joinResult with
          | .error _ => (.err, [], [Op.join room_id])
          | .ok _ =>
            let t := accept_invites dryrun rest
            (t.1, t.2.1, Op.join room_id :: t.2.2)

/-! ## send_invites -/

/-- The `from_c` view of one room inside `send_invites`. -/
structure SendRoomView where
  displayName : MResult String
deriving DecidableEq, Repr

/-- Environment for one room of `send_invites`: `from_c.get_room` answer and
the outcome `invite_user_by_id` would have. -/
structure SendRoomEnv where
  room : Option SendRoomView
  inviteResult : MResult Unit
deriving DecidableEq, Repr

/-- One per-room task of `send_invites` (src/main.rs lines 377-401).  Its
middle component is `Some room_id` exactly when the task reports the room as
failed; `display_name().await.unwrap()` panics on error. -/
def send_invites_room (user_id : String) (dryrun : Bool)
    (room_id : String) (env : SendRoomEnv) : StepOut × Option String × List Op :=
  match env.room with
  | none => (.ok, some room_id, [])
  | some joined =>
    match joined.displayName with
    | .error _ => (.panic, none, [])
    | .ok _ =>
      if ¬ dryrun then
        match env.inviteResult with
        | .error _ => (.ok, some room_id, [Op.invite room_id user_id])
        | .ok _ => (.ok, none, [Op.invite room_id user_id])
      else (.ok, none, [])

/-- `send_invites`: `join_all` over the per-room tasks, collecting the failed
room ids with `filter_map`. -/
def send_invites (user_id : String) (dryrun : Bool)
    (rooms : List (String × SendRoomEnv)) : StepOut × List String × List Op :=
  let rs := rooms.map fun p => send_invites_room user_id dryrun p.1 p.2
  (combine_out (rs.map (·.1)), rs.filterMap (·.2.1), (rs.map (·.2.2)).flatten)

/-! ## leave_room -/

/-- The `to_c` view of one room inside `leave_room`: `get_member` answers,
the explicit room name (`Room::name`), the computed display name
(`Room::display_name`), and — state of the room not consulted by the
program — its current number of members. -/
structure LeaveRoomView where
  members : List (String × MResult (Option MemberInfo))
  name : Option String
  displayName : MResult String
  memberCount : Nat
deriving DecidableEq, Repr

/-- Environment for one room of `leave_room`: the `to_c.get_room` answer,
whether `from_c.get_room` still returns a handle, and the outcomes `leave`
and `set_is_direct` would have. -/
structure LeaveRoomEnv where
  toRoom : Option LeaveRoomView
  fromRoom : Bool
  leaveResult : MResult Unit
  setDirectResult : MResult Unit
deriving DecidableEq, Repr

/-- One iteration of the `leave_room` loop (src/main.rs lines 416-469): the
sequence of checks on `to_c`'s view, the dry-run `continue`, the
`from_c.get_room(..).expect("Failed to fetch room")` panic when the source
session has no handle, the leave itself, and the direct-message flagging
gated only on `joined.name().is_none()`. -/
def leave_room_step (self_id new_user : String) (dryrun : Bool)
    (room_id : String) (env : LeaveRoomEnv) : StepOut × List Op :=
  match env.toRoom with
  | none => (.ok, [])
  | some joined =>
    match get_member joined.members self_id with
    | .error _ => (.err, [])
    | .ok none => (.ok, [])
    | .ok (some me) =>
      match get_member joined.members new_user with
      | .error _ => (.err, [])
      | .ok none => (.ok, [])
      | .ok (some new_acc) =>
        if me.power_level > new_acc.power_level then (.ok, [])
        else
          match joined.displayName with
          | .error _ => (.err, [])
          | .ok _ =>
            if dryrun then (.ok, [])
            else if ¬ env.fromRoom then (.panic, [])
            else
              match env.leaveResult with
              | .error _ => (.err, [Op.leave room_id])
              | .ok _ =>
                match joined.name with
                | some _ => (.ok, [Op.leave room_id])
                | none =>
                  match joined.displayName with
                  | .error _ => (.err, [Op.leave room_id])
                  | .ok _ =>
                    if ¬ dryrun then
                      match env.setDirectResult with
                      | .error _ =>
                        (.err, [Op.leave room_id, Op.setDirect room_id true])
                      | .ok _ =>
                        (.ok, [Op.leave room_id, Op.setDirect room_id true])
                    else (.ok, [Op.leave room_id])

/-- `leave_room` (src/main.rs lines 408-472): a sequential loop over the
candidate rooms, stopping at the first propagated error or panic. -/
def leave_room (self_id new_user : String) (dryrun : Bool)
    (rooms : List (String × LeaveRoomEnv)) : StepOut × List Op :=
  match rooms with
  | [] => (.ok, [])
  | (room_id, env) :: rest =>
    let s := leave_room_step self_id new_user dryrun room_id env
    match s.1 with
    | .ok =>
      let t := leave_room self_id new_user dryrun rest
      (t.1, s.2 ++ t.2)
    | o => (o, s.2)

/-! ## Orchestration in main -/

/-- The third arm of the `try_join!` in `main` (src/main.rs lines 224-237):
send the invites, then run `ensure_power_levels` over the FULL `to_invite`
list, then keep as still awaited exactly the rooms not in `failed_invites`.
Each `to_invite` entry carries its `send_invites` and `ensure_power_levels`
environments. -/
def send_phase (self_id user_id : String) (dryrun : Bool)
    (to_invite : List (String × SendRoomEnv × EnsureRoomEnv)) :
    StepOut × (List String × List String) × List Op :=
  let s := send_invites user_id dryrun (to_invite.map fun p => (p.1, p.2.1))
  match s.1 with
  | .ok =>
    let failed_invites := s.2.1
    let e := ensure_power_levels self_id user_id dryrun
      (to_invite.map fun p => (p.1, p.2.2))
    match e.1 with
    | .ok =>
      let remaining := (to_invite.map (·.1)).filter fun r => ¬ failed_invites.contains r
      (.ok, (remaining, failed_invites), s.2.2 ++ e.2)
    | o => (o, ([], []), s.2.2 ++ e.2)
  | o => (o, ([], []), s.2.2)

/-- The `try_join!` of `main` (src/main.rs lines 221-243): power-level pass on
the already-shared rooms, accept pass on the pending invites, and the send
phase, joined; on success `invites_awaiting` chains `not_yet_accepted` with
the send phase's remaining rooms. -/
def first_round (self_id user_id : String) (dryrun : Bool)
    (already_invited : List (String × EnsureRoomEnv))
    (to_accept : List (String × AcceptRoomEnv))
    (to_invite : List (String × SendRoomEnv × EnsureRoomEnv)) :
    StepOut × (List String × List String) × List Op :=
  let e := ensure_power_levels self_id user_id dryrun already_invited
  let a := accept_invites dryrun to_accept
  let s := send_phase self_id user_id dryrun to_invite
  let ops := e.2 ++ a.2.2 ++ s.2.2
  match combine_out [e.1, a.1, s.1] with
  | .ok => (.ok, (a.2.1 ++ s.2.1.1, s.2.1.2), ops)
  | o => (o, ([], []), ops)

/-- What one later convergence round observes: the outcome of
`to_sync_stream.next()` (`.panic` if the stream broke, `.err` if the sync
errored) and the `accept_invites` environment per room id. -/
structure RoundEnv where
  syncResult : StepOut
  rooms : List (String × AcceptRoomEnv)
deriving Repr

/-- The accept environment a round offers for a given room id; a room the
round does not mention is simply still unknown to `to_c`. -/
def lookup_accept (re : List (String × AcceptRoomEnv)) (r : String) : AcceptRoomEnv :=
  (re.lookup r).getD ⟨none, .ok ()⟩

/-- The retry loop of `main` (src/main.rs lines 246-251):
`while !invites_awaiting.is_empty() && !args.dryrun`, each iteration syncing
and re-running `accept_invites` on the rooms still awaited.  The supplied
list of `RoundEnv`s is the (finite prefix of the) sync stream; the result is
(number of loop-body executions, outcome, final awaiting set, issued ops). -/
def retry_loop (dryrun : Bool) :
    List String → List RoundEnv → Nat × StepOut × List String × List Op
  | awaiting, [] => (0, .ok, awaiting, [])
  | awaiting, re :: rest =>
    if awaiting.isEmpty ∨ dryrun then (0, .ok, awaiting, [])
    else
      match re.syncResult with
      | .ok =>
        let a := accept_invites dryrun (awaiting.map fun r => (r, lookup_accept re.rooms r))
        match a.1 with
        | .ok =>
          let t := retry_loop dryrun a.2.1 rest
          (t.1 + 1, t.2.1, t.2.2.1, a.2.2 ++ t.2.2.2)
        | o => (1, o, [], a.2.2)
      | o => (1, o, [], [])

/-! ## Room filtering and the migration plan -/

/-- The filter building `all_prev_rooms` (src/main.rs lines 165-177): the
deny-list (`rooms_excluded`) is checked first, then the allow-list
(`rooms`, empty meaning all). -/
def filter_prev_rooms (rooms_excluded rooms : List String)
    (joined : List String) : List String :=
  joined.filterMap fun r =>
    if rooms_excluded.contains r then none
    else if ¬ rooms.isEmpty ∧ ¬ rooms.contains r then none
    else some r

/-- `all_new_rooms` (src/main.rs lines 179-188): the destination's joined
rooms chained with its invited rooms. -/
def all_new_rooms (dest_joined dest_invited : List String) : List String :=
  dest_joined ++ dest_invited

/-- The partition and accept-filter of `main` (src/main.rs lines 190-205),
returning `(already_invited, to_invite, invites_to_accept)`. -/
def compute_plan (all_prev_rooms all_new dest_invited : List String) :
    List String × List String × List String :=
  let p := all_prev_rooms.partition fun r => all_new.contains r
  let invites_to_accept := dest_invited.filterMap fun r =>
    if all_prev_rooms.contains r then some r else none
  (p.1, p.2, invites_to_accept)

/-! ## Helper lemmas about the leave phase -/

/-- A `leave_room_step` whose source session holds no handle for the room
issues no operation: every path either exits before the leave or panics at
the `expect` with nothing issued. -/
theorem leave_step_no_handle_no_ops (self_id new_user : String) (dryrun : Bool)
    (room_id : String) (env : LeaveRoomEnv) (h : env.fromRoom = false) :
    (leave_room_step self_id new_user dryrun room_id env).2 = [] := by
  unfold leave_room_step
  repeat' split <;> try (first | rfl | simp_all)

/-- If a `leave_room_step` emits a leave, it is for its own room and the
three membership/privilege checks succeeded, with the destination's power
level at least the source's. -/
theorem leave_step_leave_mem (self_id new_user : String) (dryrun : Bool)
    (room_id r : String) (env : LeaveRoomEnv)
    (h : Op.leave r ∈ (leave_room_step self_id new_user dryrun room_id env).2) :
    r = room_id ∧ ∃ joined me new_acc,
      env.toRoom = some joined ∧
      get_member joined.members self_id = .ok (some me) ∧
      get_member joined.members new_user = .ok (some new_acc) ∧
      me.power_level ≤ new_acc.power_level := by
  unfold leave_room_step at h
  split at h
  · simp at h
  next joined htr =>
    split at h
    next => simp at h
    next => simp at h
    next me hm1 =>
      split at h
      next => simp at h
      next => simp at h
      next new_acc hm2 =>
        split at h
        next hp => simp at h
        next hp =>
          have hr : r = room_id := by
            repeat' split at h <;> try simp_all
          exact ⟨hr, joined, me, new_acc, htr, hm1, hm2, not_lt.mp hp⟩

/-! ## Claim theorems -/

/-- C1: a leave is issued by the leave phase only for a candidate room whose
destination member record shows a power level at least the source's, and a
room where the destination's power level is strictly below the source's is
skipped with nothing issued. -/
theorem C1_leave_gated_on_privilege :
    (∀ (self_id new_user : String) (dryrun : Bool)
       (rooms : List (String × LeaveRoomEnv)) (r : String),
      Op.leave r ∈ (leave_room self_id new_user dryrun rooms).2 →
      ∃ env, (r, env) ∈ rooms ∧ ∃ joined me new_acc,
        env.toRoom = some joined ∧
        get_member joined.members self_id = .ok (some me) ∧
        get_member joined.members new_user = .ok (some new_acc) ∧
        me.power_level ≤ new_acc.power_level) ∧
    (∀ (self_id new_user : String) (dryrun : Bool) (room_id : String)
       (env : LeaveRoomEnv) (joined : LeaveRoomView) (me new_acc : MemberInfo),
      env.toRoom = some joined →
      get_member joined.members self_id = .ok (some me) →
      get_member joined.members new_user = .ok (some new_acc) →
      new_acc.power_level < me.power_level →
      leave_room_step self_id new_user dryrun room_id env = (.ok, [])) := by
  constructor
  · intro self_id new_user dryrun rooms
    induction rooms with
    | nil => intro r h; simp [leave_room] at h
    | cons p rest ih =>
      obtain ⟨room_id, env⟩ := p
      intro r h
      rw [leave_room] at h
      rcases ho : (leave_room_step self_id new_user dryrun room_id env).1 with _ | _ | _ <;>
        simp only [ho] at h
      · rcases List.mem_append.mp h with hh | ht
        · obtain ⟨hr, hsafe⟩ :=
            leave_step_leave_mem self_id new_user dryrun room_id r env hh
          exact ⟨env, by simp [hr], hsafe⟩
        · obtain ⟨env', hmem, hsafe⟩ := ih r ht
          exact ⟨env', List.mem_cons_of_mem _ hmem, hsafe⟩
      · obtain ⟨hr, hsafe⟩ :=
          leave_step_leave_mem self_id new_user dryrun room_id r env h
        exact ⟨env, by simp [hr], hsafe⟩
      · obtain ⟨hr, hsafe⟩ :=
          leave_step_leave_mem self_id new_user dryrun room_id r env h
        exact ⟨env, by simp [hr], hsafe⟩
  · intro self_id new_user dryrun room_id env joined me new_acc h1 h2 h3 h4
    unfold leave_room_step
    repeat' split <;> simp_all

/-- Witness for C1: on a one-room list where every check passes the leave is
issued and the theorem recovers the privilege comparison; a room where the
destination is strictly below the source is left untouched. -/
theorem C1_witness :
    (∃ env, (("!r" : String), env) ∈
        [(("!r" : String),
          (⟨some ⟨[("s", .ok (some ⟨7⟩)), ("n", .ok (some ⟨9⟩))], some "nm", .ok "x", 5⟩,
            true, .ok (), .ok ()⟩ : LeaveRoomEnv))] ∧
      ∃ joined me new_acc,
        env.toRoom = some joined ∧
        get_member joined.members "s" = .ok (some me) ∧
        get_member joined.members "n" = .ok (some new_acc) ∧
        me.power_level ≤ new_acc.power_level) ∧
    leave_room_step "s" "n" false "!q"
      ⟨some ⟨[("s", .ok (some ⟨7⟩)), ("n", .ok (some ⟨3⟩))], none, .ok "x", 2⟩,
        true, .ok (), .ok ()⟩ = (.ok, []) := by
  constructor
  · exact C1_leave_gated_on_privilege.1 "s" "n" false _ "!r" (by decide)
  · exact C1_leave_gated_on_privilege.2 "s" "n" false "!q" _
      ⟨[("s", .ok (some ⟨7⟩)), ("n", .ok (some ⟨3⟩))], none, .ok "x", 2⟩
      ⟨7⟩ ⟨3⟩ rfl (by decide) (by decide) (by decide)

/-- C7: when the target user's power level already reaches the acting
session's own, `ensure_power_levels` performs no privilege-set operation for
that room and finishes cleanly, so re-running it there is a no-op. -/
theorem C7_equalizer_noop_when_sufficient :
    ∀ (self_id user_id : String) (dryrun : Bool) (room_id : String)
      (env : EnsureRoomEnv) (joined : EnsureRoomView) (me new_acc : MemberInfo),
      env.room = some joined →
      get_member joined.members self_id = .ok (some me) →
      get_member joined.members user_id = .ok (some new_acc) →
      me.power_level ≤ new_acc.power_level →
      ensure_power_levels_room self_id user_id dryrun room_id env = (.ok, []) := by
  intro self_id user_id dryrun room_id env joined me new_acc h1 h2 h3 h4
  unfold ensure_power_levels_room
  repeat' split <;> simp_all

/-- Witness for C7: equal power levels (100 and 100) in a concrete room are
left alone. -/
theorem C7_witness :
    ensure_power_levels_room "s" "u" false "!r"
      ⟨some ⟨[("s", .ok (some ⟨100⟩)), ("u", .ok (some ⟨100⟩))]⟩, .error ()⟩ = (.ok, []) :=
  C7_equalizer_noop_when_sufficient "s" "u" false "!r" _
    ⟨[("s", .ok (some ⟨100⟩)), ("u", .ok (some ⟨100⟩))]⟩ ⟨100⟩ ⟨100⟩
    rfl (by decide) (by decide) (by decide)

/-- C10: once the three leave-phase checks pass in a non-dry run, the step
panics (at the `expect`) when the source session no longer returns a handle
for the room, and any issued leave had the source handle present. -/
theorem C10_leave_expects_source_handle :
    ∀ (self_id new_user room_id : String) (env : LeaveRoomEnv)
      (joined : LeaveRoomView) (me new_acc : MemberInfo) (dn : String),
      env.toRoom = some joined →
      get_member joined.members self_id = .ok (some me) →
      get_member joined.members new_user = .ok (some new_acc) →
      me.power_level ≤ new_acc.power_level →
      joined.displayName = .ok dn →
      (env.fromRoom = false →
        leave_room_step self_id new_user false room_id env = (.panic, [])) ∧
      (Op.leave room_id ∈ (leave_room_step self_id new_user false room_id env).2 →
        env.fromRoom = true) := by
  intro self_id new_user room_id env joined me new_acc dn h1 h2 h3 h4 h5
  constructor
  · intro h6
    unfold leave_room_step
    repeat' split <;> simp_all
  · intro h6
    by_cases hf : env.fromRoom
    · exact hf
    · rw [leave_step_no_handle_no_ops self_id new_user false room_id env
        (by simpa using hf)] at h6
      simp at h6

/-- Witness for C10: a concrete room passing all checks with the source
handle gone makes the step panic. -/
theorem C10_witness :
    leave_room_step "s" "n" false "!r"
      ⟨some ⟨[("s", .ok (some ⟨50⟩)), ("n", .ok (some ⟨50⟩))], none, .ok "x", 2⟩,
        false, .ok (), .ok ()⟩ = (.panic, []) :=
  (C10_leave_expects_source_handle "s" "n" "!r" _
    ⟨[("s", .ok (some ⟨50⟩)), ("n", .ok (some ⟨50⟩))], none, .ok "x", 2⟩
    ⟨50⟩ ⟨50⟩ "x" rfl (by decide) (by decide) (by decide) rfl).1 rfl

/-- Counterexample to C4 as stated: a room with three members and no
explicit name is still flagged as direct after the leave — the member count
is never consulted. -/
theorem C4_counterexample :
    (∃ v : LeaveRoomView,
      (⟨some ⟨[("s", .ok (some ⟨50⟩)), ("n", .ok (some ⟨50⟩))], none, .ok "x", 3⟩,
        true, .ok (), .ok ()⟩ : LeaveRoomEnv).toRoom = some v ∧ v.memberCount ≠ 2) ∧
    Op.setDirect "!r" true ∈
      (leave_room_step "s" "n" false "!r"
        ⟨some ⟨[("s", .ok (some ⟨50⟩)), ("n", .ok (some ⟨50⟩))], none, .ok "x", 3⟩,
          true, .ok (), .ok ()⟩).2 := by
  exact ⟨⟨_, rfl, by decide⟩, by decide⟩

/-- C4 amended: the direct-message flag is set only for a room without an
explicit display name (`Room::name` returns `None`); the member count plays
no part in the decision. -/
theorem C4_direct_flag_only_if_unnamed :
    ∀ (self_id new_user : String) (dryrun : Bool) (room_id : String)
      (env : LeaveRoomEnv),
      Op.setDirect room_id true ∈
        (leave_room_step self_id new_user dryrun room_id env).2 →
      ∃ joined, env.toRoom = some joined ∧ joined.name = none := by
  intro self_id new_user dryrun room_id env h
  unfold leave_room_step at h
  split at h
  · simp at h
  next joined htr =>
    refine ⟨joined, htr, ?_⟩
    repeat' split at h <;> try simp_all

/-- Witness for the amended C4: the flagged three-member room indeed has no
explicit name. -/
theorem C4_witness :
    ∃ joined,
      (⟨some ⟨[("s", .ok (some ⟨50⟩)), ("n", .ok (some ⟨50⟩))], none, .ok "x", 3⟩,
        true, .ok (), .ok ()⟩ : LeaveRoomEnv).toRoom = some joined ∧
      joined.name = none :=
  C4_direct_flag_only_if_unnamed "s" "n" false "!r"
    ⟨some ⟨[("s", .ok (some ⟨50⟩)), ("n", .ok (some ⟨50⟩))], none, .ok "x", 3⟩,
      true, .ok (), .ok ()⟩ (by decide)

/-- C9: every room an accept pass reports as still pending was among the
rooms handed to it, so the pending set only ever shrinks across rounds. -/
theorem C9_pending_only_shrinks :
    ∀ (dryrun : Bool) (rooms : List (String × AcceptRoomEnv)) (r : String),
      r ∈ (accept_invites dryrun rooms).2.1 → r ∈ rooms.map (·.1) := by
  intro dryrun rooms
  induction rooms with
  | nil => intro r h; simp [accept_invites] at h
  | cons p rest ih =>
    obtain ⟨room_id, env⟩ := p
    intro r h
    simp only [accept_invites] at h
    split at h
    · simp only [List.map_cons, List.mem_cons] at h ⊢
      rcases h with h | h
      · exact Or.inl h
      · exact Or.inr (ih r h)
    · split at h
      · simp at h
      · split at h
        · exact List.mem_cons_of_mem _ (ih r h)
        · split at h
          · simp at h
          · exact List.mem_cons_of_mem _ (ih r h)

/-- Witness for C9: a room the destination cannot see yet stays pending and
is indeed one of the input rooms. -/
theorem C9_witness :
    ("!a" : String) ∈
      ([(("!a" : String), (⟨none, .ok ()⟩ : AcceptRoomEnv))].map (·.1)) :=
  C9_pending_only_shrinks false [("!a", ⟨none, .ok ()⟩)] "!a" (by decide)

/-! ## Dry-run lemmas -/

/-- In a dry run one `ensure_power_levels` task issues nothing. -/
theorem ensure_room_dryrun_no_ops (self_id user_id room_id : String)
    (env : EnsureRoomEnv) :
    (ensure_power_levels_room self_id user_id true room_id env).2 = [] := by
  unfold ensure_power_levels_room
  repeat' split <;> try (first | rfl | simp_all)

/-- In a dry run `ensure_power_levels` issues nothing. -/
theorem ensure_dryrun_no_ops (self_id user_id : String)
    (rooms : List (String × EnsureRoomEnv)) :
    (ensure_power_levels self_id user_id true rooms).2 = [] := by
  simp only [ensure_power_levels, List.flatten_eq_nil_iff, List.mem_map]
  rintro l ⟨q, ⟨p, hp, rfl⟩, rfl⟩
  exact ensure_room_dryrun_no_ops _ _ _ _

/-- In a dry run `accept_invites` issues nothing. -/
theorem accept_dryrun_no_ops (rooms : List (String × AcceptRoomEnv)) :
    (accept_invites true rooms).2.2 = [] := by
  induction rooms with
  | nil => rfl
  | cons p rest ih =>
    obtain ⟨room_id, env⟩ := p
    simp only [accept_invites]
    split
    · simpa using ih
    · split
      · rfl
      · simpa using ih

/-- In a dry run one `send_invites` task issues nothing. -/
theorem send_room_dryrun_no_ops (user_id room_id : String) (env : SendRoomEnv) :
    (send_invites_room user_id true room_id env).2.2 = [] := by
  unfold send_invites_room
  repeat' split <;> try (first | rfl | simp_all)

/-- In a dry run `send_invites` issues nothing. -/
theorem send_dryrun_no_ops (user_id : String)
    (rooms : List (String × SendRoomEnv)) :
    (send_invites user_id true rooms).2.2 = [] := by
  simp only [send_invites, List.flatten_eq_nil_iff, List.mem_map]
  rintro l ⟨q, ⟨p, hp, rfl⟩, rfl⟩
  exact send_room_dryrun_no_ops _ _ _

/-- In a dry run the whole send phase issues nothing. -/
theorem send_phase_dryrun_no_ops (self_id user_id : String)
    (to_invite : List (String × SendRoomEnv × EnsureRoomEnv)) :
    (send_phase self_id user_id true to_invite).2.2 = [] := by
  simp only [send_phase]
  repeat' split <;> simp [send_dryrun_no_ops, ensure_dryrun_no_ops]

/-- In a dry run one `leave_room` iteration issues nothing. -/
theorem leave_step_dryrun_no_ops (self_id new_user room_id : String)
    (env : LeaveRoomEnv) :
    (leave_room_step self_id new_user true room_id env).2 = [] := by
  unfold leave_room_step
  repeat' split <;> try (first | rfl | simp_all)

/-- In a dry run `leave_room` issues nothing. -/
theorem leave_dryrun_no_ops (self_id new_user : String)
    (rooms : List (String × LeaveRoomEnv)) :
    (leave_room self_id new_user true rooms).2 = [] := by
  induction rooms with
  | nil => rfl
  | cons p rest ih =>
    obtain ⟨room_id, env⟩ := p
    simp only [leave_room]
    split <;> simp [leave_step_dryrun_no_ops, ih]

/-- C2: with the dry-run flag set, the first round issues no mutating
operation, the leave phase issues none either, and the retry loop body is
never entered: the loop returns at once with the awaiting set untouched. -/
theorem C2_dryrun_no_mutation_single_pass :
    ∀ (self_id user_id : String)
      (already_invited : List (String × EnsureRoomEnv))
      (to_accept : List (String × AcceptRoomEnv))
      (to_invite : List (String × SendRoomEnv × EnsureRoomEnv))
      (leave_rooms : List (String × LeaveRoomEnv))
      (awaiting : List String) (rounds : List RoundEnv),
      (first_round self_id user_id true already_invited to_accept to_invite).2.2 = [] ∧
      (leave_room self_id user_id true leave_rooms).2 = [] ∧
      retry_loop true awaiting rounds = (0, .ok, awaiting, []) := by
  intro self_id user_id already_invited to_accept to_invite leave_rooms awaiting rounds
  refine ⟨?_, leave_dryrun_no_ops _ _ _, ?_⟩
  · simp only [first_round]
    repeat' split <;>
      simp [ensure_dryrun_no_ops, accept_dryrun_no_ops, send_phase_dryrun_no_ops]
  · cases rounds with
    | nil => rfl
    | cons re rest => simp [retry_loop]

/-- C3: on any pair of snapshots the plan is the three-way set split —
already-shared is the filtered source set intersected with the destination's
known rooms, to-invite its complement inside the filtered source set,
to-accept the destination's invited rooms intersected with the filtered
source set — and already-shared and to-invite are disjoint with union exactly
the filtered source set. -/
theorem C3_reconciler_partition :
    ∀ (excl allow src_joined dest_joined dest_invited : List String) (r : String),
      (r ∈ (compute_plan (filter_prev_rooms excl allow src_joined)
          (all_new_rooms dest_joined dest_invited) dest_invited).1 ↔
        r ∈ filter_prev_rooms excl allow src_joined ∧
          (r ∈ dest_joined ∨ r ∈ dest_invited)) ∧
      (r ∈ (compute_plan (filter_prev_rooms excl allow src_joined)
          (all_new_rooms dest_joined dest_invited) dest_invited).2.1 ↔
        r ∈ filter_prev_rooms excl allow src_joined ∧
          ¬(r ∈ dest_joined ∨ r ∈ dest_invited)) ∧
      (r ∈ (compute_plan (filter_prev_rooms excl allow src_joined)
          (all_new_rooms dest_joined dest_invited) dest_invited).2.2 ↔
        r ∈ dest_invited ∧ r ∈ filter_prev_rooms excl allow src_joined) ∧
      ¬(r ∈ (compute_plan (filter_prev_rooms excl allow src_joined)
          (all_new_rooms dest_joined dest_invited) dest_invited).1 ∧
        r ∈ (compute_plan (filter_prev_rooms excl allow src_joined)
          (all_new_rooms dest_joined dest_invited) dest_invited).2.1) ∧
      ((r ∈ (compute_plan (filter_prev_rooms excl allow src_joined)
          (all_new_rooms dest_joined dest_invited) dest_invited).1 ∨
        r ∈ (compute_plan (filter_prev_rooms excl allow src_joined)
          (all_new_rooms dest_joined dest_invited) dest_invited).2.1) ↔
        r ∈ filter_prev_rooms excl allow src_joined) := by
  intro excl allow src_joined dest_joined dest_invited r
  simp only [compute_plan, all_new_rooms, List.partition_eq_filter_filter]
  refine ⟨?_, ?_, ?_, ?_, ?_⟩ <;>
    simp [List.mem_filter, List.elem_iff, List.mem_filterMap, Function.comp] <;>
    tauto

/-- C8: the deny-list wins over the allow-list — a denied room never survives
the source-room filter, whatever the allow-list says — and in the concrete
scenario source={A,B,C}, destination={B}, deny={C} the plan is
already-shared={B}, to-invite={A}, with C in no component. -/
theorem C8_denylist_over_allowlist :
    (∀ (excl allow joined : List String) (r : String),
      r ∈ excl → r ∉ filter_prev_rooms excl allow joined) ∧
    compute_plan (filter_prev_rooms ["!C"] [] ["!A", "!B", "!C"])
      (all_new_rooms ["!B"] []) [] = (["!B"], ["!A"], []) := by
  constructor
  · intro excl allow joined r hr hmem
    simp only [filter_prev_rooms, List.mem_filterMap] at hmem
    obtain ⟨a, _, hfa⟩ := hmem
    simp at hfa
    obtain ⟨hna, -, rfl⟩ := hfa
    exact hna hr
  · decide

/-- Witness for C8: a room on both lists at once is filtered out. -/
theorem C8_witness : ("!C" : String) ∉ filter_prev_rooms ["!C"] ["!C"] ["!C"] :=
  C8_denylist_over_allowlist.1 ["!C"] ["!C"] ["!C"] "!C" (by decide)

/-! ## Send-phase and error-propagation lemmas -/

/-- A `send_invites` task never produces a propagated error: a rejected
invite is reported as a failed room instead. -/
theorem send_room_never_err (user_id : String) (dryrun : Bool)
    (room_id : String) (env : SendRoomEnv) :
    (send_invites_room user_id dryrun room_id env).1 ≠ .err := by
  unfold send_invites_room
  repeat' split <;> try (first | rfl | simp)

/-- Counterexample to C5 as stated: with one room whose invite send fails but
where both members are visible, the room lands in the failed set and leaves
the pending set, yet the privilege pass that follows the send still runs on
it and issues a privilege-set operation for it. -/
theorem C5_counterexample :
    send_phase "s" "u" false
      [("!r", ⟨some ⟨.ok "nm"⟩, .error ()⟩,
        ⟨some ⟨[("s", .ok (some ⟨100⟩)), ("u", .ok (some ⟨0⟩))]⟩, .ok ()⟩)] =
      (.ok, ([], ["!r"]), [Op.invite "!r" "u", Op.setPower "!r" "u" 100]) := by
  decide

/-- C5 amended: every room whose invite send fails is recorded in the failed
set and excluded from the set awaiting acceptance, but the privilege pass
after the send runs over the full to-invite list, failed rooms included. -/
theorem C5_failed_invites_tracking :
    ∀ (self_id user_id : String) (dryrun : Bool)
      (to_invite : List (String × SendRoomEnv × EnsureRoomEnv))
      (rem failed : List String) (ops : List Op),
      send_phase self_id user_id dryrun to_invite = (.ok, (rem, failed), ops) →
      (∀ p ∈ to_invite, ∀ r,
        (send_invites_room user_id dryrun p.1 p.2.1).2.1 = some r → r ∈ failed) ∧
      (∀ r, r ∈ rem ↔ r ∈ to_invite.map (·.1) ∧ ¬ r ∈ failed) ∧
      ops = (send_invites user_id dryrun (to_invite.map fun p => (p.1, p.2.1))).2.2 ++
        (ensure_power_levels self_id user_id dryrun
          (to_invite.map fun p => (p.1, p.2.2))).2 := by
  intro s u d ti rem failed ops h
  simp only [send_phase] at h
  split at h
  · split at h
    · simp only [Prod.mk.injEq] at h
      obtain ⟨-, ⟨hrem, hfail⟩, hops⟩ := h
      subst hrem; subst hfail; subst hops
      refine ⟨?_, ?_, rfl⟩
      · intro p hp r hr
        simp only [send_invites, List.mem_filterMap, List.mem_map]
        exact ⟨send_invites_room u d p.1 p.2.1, ⟨(p.1, p.2.1), ⟨p, hp, rfl⟩, rfl⟩, hr⟩
      · intro r
        simp [List.mem_filter, List.elem_iff]
    · next hne =>
        simp only [Prod.mk.injEq] at h
        exact absurd h.1 hne
  · next hne =>
      simp only [Prod.mk.injEq] at h
      exact absurd h.1 hne

/-- Witness for C5 (amended): a round with one room whose invite succeeds has
an empty failed set, keeps the room awaited, and its operations decompose
into the send ops followed by the equalizer ops. -/
theorem C5_witness :
    (∀ p ∈ [(("!r" : String), (⟨some ⟨.ok "nm"⟩, .ok ()⟩ : SendRoomEnv),
        (⟨none, .ok ()⟩ : EnsureRoomEnv))], ∀ r,
      (send_invites_room "u" false p.1 p.2.1).2.1 = some r →
        r ∈ ([] : List String)) ∧
    (∀ r, r ∈ ["!r"] ↔
      r ∈ ([(("!r" : String), (⟨some ⟨.ok "nm"⟩, .ok ()⟩ : SendRoomEnv),
        (⟨none, .ok ()⟩ : EnsureRoomEnv))].map (·.1)) ∧ ¬ r ∈ ([] : List String)) ∧
    [Op.invite "!r" "u"] =
      (send_invites "u" false
        ([(("!r" : String), (⟨some ⟨.ok "nm"⟩, .ok ()⟩ : SendRoomEnv),
          (⟨none, .ok ()⟩ : EnsureRoomEnv))].map fun p => (p.1, p.2.1))).2.2 ++
      (ensure_power_levels "s" "u" false
        ([(("!r" : String), (⟨some ⟨.ok "nm"⟩, .ok ()⟩ : SendRoomEnv),
          (⟨none, .ok ()⟩ : EnsureRoomEnv))].map fun p => (p.1, p.2.2))).2 :=
  C5_failed_invites_tracking "s" "u" false _ ["!r"] [] [Op.invite "!r" "u"] (by decide)

/-- Counterexample to C6 as stated: a single failed invite acceptance — the
destination's `join` call returns an error — makes the whole first round
finish with a propagated error, which `main` re-raises; the run aborts on a
room-scoped failure instead of logging and skipping it. -/
theorem C6_counterexample :
    (first_round "s" "u" false [] [("!r", ⟨some ⟨.ok "nm"⟩, .error ()⟩)] []).1 = .err := by
  decide

/-- C6 amended: a rejected invite send and a failed privilege update are
logged and skipped — `send_invites` never propagates an error and the
equalizer's verdict is independent of the update outcome — but a
display-name failure and a failed invite acceptance (`join`) each propagate
an error out of `accept_invites`, a rejected leave propagates an error out
of the leave step after the leave was issued, and a membership lookup
failure propagates an error out of both the equalizer task and the leave
step. -/
theorem C6_room_scoped_error_propagation :
    (∀ (user_id : String) (dryrun : Bool) (rooms : List (String × SendRoomEnv)),
      (send_invites user_id dryrun rooms).1 ≠ .err) ∧
    (∀ (self_id user_id : String) (dryrun : Bool) (room_id : String)
       (room : Option EnsureRoomView) (u1 u2 : MResult Unit),
      (ensure_power_levels_room self_id user_id dryrun room_id ⟨room, u1⟩).1 =
      (ensure_power_levels_room self_id user_id dryrun room_id ⟨room, u2⟩).1) ∧
    (∀ (dryrun : Bool) (room_id : String) (jr : MResult Unit)
       (rest : List (String × AcceptRoomEnv)),
      (accept_invites dryrun ((room_id, ⟨some ⟨.error ()⟩, jr⟩) :: rest)).1 = .err) ∧
    (∀ (room_id dn : String) (rest : List (String × AcceptRoomEnv)),
      (accept_invites false ((room_id, ⟨some ⟨.ok dn⟩, .error ()⟩) :: rest)).1 = .err) ∧
    (∀ (self_id new_user room_id : String) (env : LeaveRoomEnv)
       (joined : LeaveRoomView) (me new_acc : MemberInfo) (dn : String),
      env.toRoom = some joined →
      get_member joined.members self_id = .ok (some me) →
      get_member joined.members new_user = .ok (some new_acc) →
      me.power_level ≤ new_acc.power_level →
      joined.displayName = .ok dn →
      env.fromRoom = true →
      env.leaveResult = .error () →
      leave_room_step self_id new_user false room_id env =
        (.err, [Op.leave room_id])) ∧
    (∀ (self_id user_id : String) (dryrun : Bool) (room_id : String)
       (env : EnsureRoomEnv) (joined : EnsureRoomView),
      env.room = some joined →
      get_member joined.members self_id = .error () →
      ensure_power_levels_room self_id user_id dryrun room_id env = (.err, [])) ∧
    (∀ (self_id new_user : String) (dryrun : Bool) (room_id : String)
       (env : LeaveRoomEnv) (joined : LeaveRoomView),
      env.toRoom = some joined →
      get_member joined.members self_id = .error () →
      leave_room_step self_id new_user dryrun room_id env = (.err, [])) := by
  refine ⟨?_, ?_, ?_, ?_, ?_, ?_, ?_⟩
  · intro u d rooms h
    simp only [send_invites, combine_out] at h
    split at h
    · simp at h
    · split at h
      next hnp hcon =>
        rw [List.elem_iff] at hcon
        obtain ⟨q, hq, hq1⟩ := List.mem_map.mp hcon
        obtain ⟨p, hp, rfl⟩ := List.mem_map.mp hq
        exact send_room_never_err u d p.1 p.2 hq1
      next => simp at h
  · intro s u d rid room u1 u2
    unfold ensure_power_levels_room
    repeat' split <;> try (first | rfl | simp_all)
  · intro d rid jr rest
    rfl
  · intro rid dn rest
    rfl
  · intro s n rid env joined me new_acc dn h1 h2 h3 h4 h5 h6 h7
    unfold leave_room_step
    repeat' split <;> try (first | rfl | simp_all)
  · intro s u d rid env joined h1 h2
    unfold ensure_power_levels_room
    repeat' split <;> try (first | rfl | simp_all)
  · intro s n d rid env joined h1 h2
    unfold leave_room_step
    repeat' split <;> try (first | rfl | simp_all)

/-- Witness for C6 (amended): a round with a rejected invite finishes without
a propagated error, a rejected leave on a room passing every check errs with
the leave already issued, and a failed source-member lookup errs out of the
equalizer task. -/
theorem C6_witness :
    (send_invites "u" false [("!r", ⟨some ⟨.ok "nm"⟩, .error ()⟩)]).1 ≠ .err ∧
    leave_room_step "s" "n" false "!r"
      ⟨some ⟨[("s", .ok (some ⟨5⟩)), ("n", .ok (some ⟨5⟩))], none, .ok "x", 2⟩,
        true, .error (), .ok ()⟩ = (.err, [Op.leave "!r"]) ∧
    ensure_power_levels_room "s" "u" false "!r"
      ⟨some ⟨[("s", .error ())]⟩, .ok ()⟩ = (.err, []) :=
  ⟨C6_room_scoped_error_propagation.1 "u" false [("!r", ⟨some ⟨.ok "nm"⟩, .error ()⟩)],
    C6_room_scoped_error_propagation.2.2.2.2.1 "s" "n" "!r" _
      ⟨[("s", .ok (some ⟨5⟩)), ("n", .ok (some ⟨5⟩))], none, .ok "x", 2⟩
      ⟨5⟩ ⟨5⟩ "x" rfl (by decide) (by decide) (by decide) rfl rfl rfl,
    C6_room_scoped_error_propagation.2.2.2.2.2.1 "s" "u" false "!r" _
      ⟨[("s", .error ())]⟩ rfl (by decide)⟩
